import Mathlib

/-!
Verification development for the `get_ship_data.ipynb` workflow
(docs/source/version_0.1.0/get_ship_data.ipynb).

The notebook is orchestration glue around external scientific libraries:
it lists raw sonar files from an object store, filters them by a date-token
substring, runs a per-file convert/calibrate/bin/persist loop with
catch-and-continue error handling, and finally merges the written products
with interpolated longitude/latitude tracks.

This file embeds that glue shallowly:
* Python `datetime` arithmetic is modelled on the proleptic Gregorian
  calendar via the standard civil-from-days / days-from-civil algorithms,
  at minute resolution (the notebook's datetimes carry no seconds).
* The local filesystem is an association list from path to written
  content, most recent write first.
* The external services (`echopype`, `xarray`, S3) are oracles returning
  `Except`, collected in an `Env` record; the notebook's own control flow
  (the try/except loop, the write order, the path construction) is spelled
  out from the source.
-/

namespace GetShipData

/-! ### Calendar model (proleptic Gregorian, as used by Python `datetime`) -/

/-- Day number of a civil date (year, month, day), counted from 0000-03-01,
via the standard era-based civil-calendar algorithm.  Models
`datetime.date.toordinal` up to a constant shift. -/
def daysFromCivil (y m d : Nat) : Nat :=
  let y' := if m ≤ 2 then y - 1 else y
  let era := y' / 400
  let yoe := y' % 400
  let mp := if 2 < m then m - 3 else m + 9
  let doy := (153 * mp + 2) / 5 + (d - 1)
  let doe := yoe * 365 + yoe / 4 - yoe / 100 + doy
  era * 146097 + doe

/-- Inverse of `daysFromCivil`: the civil date (year, month, day) of a day
number counted from 0000-03-01. -/
def civilFromDays (z : Nat) : Nat × Nat × Nat :=
  let era := z / 146097
  let doe := z % 146097
  let yoe := (doe - doe / 1460 + doe / 36524 - doe / 146097) / 365
  let y := yoe + era * 400
  let doy := doe - (365 * yoe + yoe / 4 - yoe / 100)
  let mp := (5 * doy + 2) / 153
  let d := doy - (153 * mp + 2) / 5 + 1
  let m := if mp < 10 then mp + 3 else mp - 9
  (if m ≤ 2 then y + 1 else y, m, d)

/-- A Python `datetime.datetime` at minute resolution (the notebook's
datetimes are constructed as `dt.datetime(Y, M, D, h, m)`, with zero
seconds and microseconds). -/
structure PyDateTime where
  year : Nat
  month : Nat
  day : Nat
  hour : Nat
  minute : Nat
deriving DecidableEq

/-- The day number of a datetime's date. -/
def dateOrd (t : PyDateTime) : Nat := daysFromCivil t.year t.month t.day

/-- Minutes elapsed since midnight. -/
def todMinutes (t : PyDateTime) : Nat := t.hour * 60 + t.minute

/-- Total minutes of a datetime on the absolute day scale; Python datetime
comparison and subtraction agree with comparison and subtraction of this
value for valid datetimes. -/
def toMinutes (t : PyDateTime) : Nat := dateOrd t * 1440 + todMinutes t

/-- `t + dt.timedelta(days = x)`: advance the date by `x` days, keeping the
time of day. -/
def addDays (t : PyDateTime) (x : Nat) : PyDateTime :=
  let c := civilFromDays (dateOrd t + x)
  ⟨c.1, c.2.1, c.2.2, t.hour, t.minute⟩

/-- Python `str.zfill w`: left-pad with `'0'` to width `w`. -/
def zfill (w : Nat) (s : String) : String :=
  if s.length < w then String.mk (List.replicate (w - s.length) '0') ++ s else s

/-- The `MMDD` token built by the notebook:
`str(date.month).zfill(2) + str(date.day).zfill(2)`. -/
def dateToken (t : PyDateTime) : String :=
  zfill 2 (toString t.month) ++ zfill 2 (toString t.day)

/-- `(end_datetime - start_datetime).days`: Python `timedelta.days` is the
floor of the total difference in days (floor division). -/
def diffDaysFloor (s e : PyDateTime) : Int :=
  ((toMinutes e : Int) - (toMinutes s : Int)).fdiv 1440

/-- The notebook's `date_list`:
```
for x in range(0, (end_datetime-start_datetime).days + 1):
    date = start_datetime + dt.timedelta(days = x)
    date_list.append(str(date.month).zfill(2)+str(date.day).zfill(2))
``` -/
def date_list (s e : PyDateTime) : List String :=
  (List.range (diffDaysFloor s e + 1).toNat).map (fun x => dateToken (addDays s x))

/-- The `MMDD` token of the calendar day with day number `z` — the
spec-side description of a day's token, used to state what `date_list`
enumerates. -/
def mmddOfOrd (z : Nat) : String :=
  zfill 2 (toString (civilFromDays z).2.1) ++ zfill 2 (toString (civilFromDays z).2.2)

/-- Python's substring test `needle in hay`. -/
def containsSub (needle hay : String) : Bool :=
  decide (needle.data <:+: hay.data)

/-- The notebook's date filter:
```
s3rawfiles = [
    s3path for s3path in s3rawfiles
    if any([f"D2017{datestr}" in s3path for datestr in date_list])
]
``` -/
def filterByDate (dl : List String) (paths : List String) : List String :=
  paths.filter (fun p => dl.any (fun d => containsSub ("D2017" ++ d) p))

/-! ### Notebook configuration constants -/

def data_type : String := "Hake"
def ping_time_bin : String := "2s"
def start_datetime : PyDateTime := ⟨2017, 7, 24, 0, 0⟩
def end_datetime : PyDateTime := ⟨2017, 8, 24, 23, 59⟩

/-! ### Output layout builder

`base_dpath = Path('./' + f"{data_type}_range={range_meter_bin}_ping={ping_time_bin}_start={...}_end={...}")`
followed by four `mkdir(exist_ok=True)` calls.  `pathlib` drops the leading
`./` component, so the created directory is the formatted name itself.
`mkdir(exist_ok=True)` is modelled as: add the directory to the set of
existing directories when absent, otherwise do nothing (and never fail). -/

/-- Configuration values formatted into the root directory name.
`range_meter_bin_repr` is the printed form of the float `range_meter_bin`
(`str(0.2) = "0.2"`); floats appear in the name only through their printed
form.  `stop` is the notebook's `end_datetime` (`end` is reserved). -/
structure LayoutCfg where
  data_type : String
  range_meter_bin_repr : String
  ping_time_bin : String
  start : PyDateTime
  stop : PyDateTime

/-- `datetime.strftime('%Y-%m-%d-%H-%M')`. -/
def strfName (t : PyDateTime) : String :=
  zfill 4 (toString t.year) ++ "-" ++ zfill 2 (toString t.month) ++ "-" ++
    zfill 2 (toString t.day) ++ "-" ++ zfill 2 (toString t.hour) ++ "-" ++
    zfill 2 (toString t.minute)

/-- The root output directory name, string-formatted from all five
configuration values exactly as in the notebook's f-string. -/
def baseDirName (cfg : LayoutCfg) : String :=
  cfg.data_type ++ "_range=" ++ cfg.range_meter_bin_repr ++ "_ping=" ++
    cfg.ping_time_bin ++ "_start=" ++ strfName cfg.start ++ "_end=" ++
    strfName cfg.stop

/-- `Path(p).mkdir(exist_ok=True)` against the list of existing
directories. -/
def mkdirIfAbsent (dirs : List String) (p : String) : List String :=
  if p ∈ dirs then dirs else dirs ++ [p]

/-- The four `mkdir(exist_ok=True)` calls of the notebook, in order:
the root, then `HakeSurvey`, `Lon`, `Lat`. -/
def buildLayout (cfg : LayoutCfg) (dirs : List String) : List String :=
  let b := baseDirName cfg
  mkdirIfAbsent
    (mkdirIfAbsent (mkdirIfAbsent (mkdirIfAbsent dirs b) (b ++ "/HakeSurvey"))
      (b ++ "/Lon"))
    (b ++ "/Lat")

/-! ### Path helpers (`pathlib.Path.name` / `.stem`) -/

/-- Index of the last occurrence of `c`, if any (Python `str.rfind`). -/
def lastIdxOf (c : Char) : List Char → Option Nat
  | [] => none
  | x :: xs =>
    match lastIdxOf c xs with
    | some i => some (i + 1)
    | none => if x = c then some 0 else none

/-- `Path(p).name`: the final `/`-separated component (the remote paths
handled here have no trailing slash). -/
def pathName (p : String) : String :=
  match lastIdxOf '/' p.data with
  | some i => String.mk (p.data.drop (i + 1))
  | none => p

/-- `Path` stem of a file name: everything before the last dot, unless the
dot is the first or last character (pathlib's suffix rule). -/
def pyStemOfName (n : String) : String :=
  match lastIdxOf '.' n.data with
  | some i => if 0 < i ∧ i + 1 < n.data.length then String.mk (n.data.take i) else n
  | none => n

/-- `Path(s3rawfpath).stem`. -/
def pathStem (p : String) : String := pyStemOfName (pathName p)

/-! ### The per-file loop -/

/-- Python exception payloads are modelled by their message string. -/
abbrev PyErr := String

/-- What a `to_netcdf` call writes: a binned `MVBS` product, a
longitude/latitude track, or the final merged dataset. -/
inductive Content (MV TR MG : Type) where
  | mvbs : MV → Content MV TR MG
  | track : TR → Content MV TR MG
  | merged : MG → Content MV TR MG

/-- The local filesystem: written files as an association list from path
to content, most recent write first (lookup takes the first match, so
re-writing a path overwrites). -/
abbrev FS (MV TR MG : Type) := List (String × Content MV TR MG)

/-- `fs.lookup`: the current content at a path, if the file exists. -/
def fsGet {MV TR MG : Type} (fs : FS MV TR MG) (q : String) :
    Option (Content MV TR MG) :=
  fs.lookup q

/-- The external services the notebook calls, as oracles.  `ED`, `SV`,
`MV`, `TR` are the opaque payload types of `EchoData`, `Sv`, `MVBS` and
platform tracks; `CM`, `CT` those of the combined datasets; `MG` the merged
output.  `writeOk` tells whether a `to_netcdf` call to a given path
succeeds; `s3glob` is the result of `fs.glob(.../*.raw)`. -/
structure Env (ED SV MV TR CM CT MG : Type) where
  s3glob : Except PyErr (List String)
  open_raw : String → Except PyErr ED
  compute_Sv : ED → Except PyErr SV
  compute_MVBS : SV → Except PyErr MV
  platformLongitude : ED → Except PyErr TR
  platformLatitude : ED → Except PyErr TR
  writeOk : String → Bool
  open_mf_mvbs : List String → Except PyErr CM
  open_mf_track : List String → Except PyErr CT
  interpAttach : CM → CT → CT → Except PyErr MG

/-- The three per-file output directories (and the root for the final
file), as created by the layout builder. -/
structure Dirs where
  base_dpath : String
  calibrated_dpath : String
  lon_dpath : String
  lat_dpath : String

/-- The notebook's directory layout under a root `b`:
`b/HakeSurvey`, `b/Lon`, `b/Lat`. -/
def mkDirs (b : String) : Dirs :=
  ⟨b, b ++ "/HakeSurvey", b ++ "/Lon", b ++ "/Lat"⟩

/-- `f"MVBS_{raw_fpath.stem}.nc"`. -/
def mvbsFileName (p : String) : String := "MVBS_" ++ pathStem p ++ ".nc"

/-- `calibrated_dpath / f"MVBS_{raw_fpath.stem}.nc"`. -/
def calibOut (dirs : Dirs) (p : String) : String :=
  dirs.calibrated_dpath ++ "/" ++ mvbsFileName p

/-- `lon_dpath / f"MVBS_{raw_fpath.stem}.nc"`. -/
def lonOut (dirs : Dirs) (p : String) : String :=
  dirs.lon_dpath ++ "/" ++ mvbsFileName p

/-- `lat_dpath / f"MVBS_{raw_fpath.stem}.nc"`. -/
def latOut (dirs : Dirs) (p : String) : String :=
  dirs.lat_dpath ++ "/" ++ mvbsFileName p

/-- Message of the exception raised by a failing `to_netcdf` call (the
message text is opaque in the source; only that it is an exception
matters). -/
def writeFailMsg (q : String) : String := "to_netcdf failed: " ++ q

/-- The body of the notebook's `try:` block for one remote file, returning
the files it wrote (most recent first) and its outcome.  The order of
operations is the source's: `open_raw`; `compute_Sv`; `compute_MVBS`;
write the MVBS product; read `ed['Platform'].longitude` and write it; read
`ed['Platform'].latitude` and write it.  An exception at any step stops the
block, keeping the writes made so far. -/
def tryBlock {ED SV MV TR CM CT MG : Type} (env : Env ED SV MV TR CM CT MG)
    (dirs : Dirs) (p : String) :
    List (String × Content MV TR MG) × Except PyErr Unit :=
  match env.open_raw p with
  | .error e => ([], .error e)
  | .ok ed =>
    match env.compute_Sv ed with
    | .error e => ([], .error e)
    | .ok dsSv =>
      match env.compute_MVBS dsSv with
      | .error e => ([], .error e)
      | .ok dsMVBS =>
        if env.writeOk (calibOut dirs p) then
          match env.platformLongitude ed with
          | .error e => ([(calibOut dirs p, Content.mvbs dsMVBS)], .error e)
          | .ok dsLon =>
            if env.writeOk (lonOut dirs p) then
              match env.platformLatitude ed with
              | .error e =>
                  ([(lonOut dirs p, Content.track dsLon),
                    (calibOut dirs p, Content.mvbs dsMVBS)], .error e)
              | .ok dsLat =>
                if env.writeOk (latOut dirs p) then
                  ([(latOut dirs p, Content.track dsLat),
                    (lonOut dirs p, Content.track dsLon),
                    (calibOut dirs p, Content.mvbs dsMVBS)], .ok ())
                else
                  ([(lonOut dirs p, Content.track dsLon),
                    (calibOut dirs p, Content.mvbs dsMVBS)],
                   .error (writeFailMsg (latOut dirs p)))
            else
              ([(calibOut dirs p, Content.mvbs dsMVBS)],
               .error (writeFailMsg (lonOut dirs p)))
        else ([], .error (writeFailMsg (calibOut dirs p)))

/-- One iteration of the loop: run the try block, apply its writes to the
filesystem, and print either the success message or the `except` clause's
failure message (`f"Failed to process raw file {raw_fpath.name}: {e}"`). -/
def processFile {ED SV MV TR CM CT MG : Type} (env : Env ED SV MV TR CM CT MG)
    (dirs : Dirs) (fs : FS MV TR MG) (p : String) : FS MV TR MG × String :=
  match tryBlock env dirs p with
  | (ws, .ok _) => (ws ++ fs, "MVBS_" ++ pathStem p ++ ".nc created")
  | (ws, .error e) =>
      (ws ++ fs, "Failed to process raw file " ++ pathName p ++ ": " ++ e)

/-- `for s3rawfpath in s3rawfiles: ...` — the whole loop, returning the
final filesystem and the printed messages in order. -/
def processFiles {ED SV MV TR CM CT MG : Type} (env : Env ED SV MV TR CM CT MG)
    (dirs : Dirs) (fs : FS MV TR MG) : List String → FS MV TR MG × List String
  | [] => (fs, [])
  | p :: rest =>
    let fm := processFile env dirs fs p
    let r := processFiles env dirs fm.1 rest
    (r.1, fm.2 :: r.2)

/-! ### The merger stage and the whole run -/

/-- Paths of the existing files. -/
def fsPaths {MV TR MG : Type} (fs : FS MV TR MG) : List String :=
  (fs.map Prod.fst).dedup

/-- Local glob `str(calibrated_dpath / 'MVBS_*.nc')`: files directly under
the calibrated directory whose name starts with `MVBS_` and ends with
`.nc`. -/
def mvbsGlob {MV TR MG : Type} (dirs : Dirs) (fs : FS MV TR MG) : List String :=
  (fsPaths fs).filter fun q =>
    decide ((dirs.calibrated_dpath ++ "/MVBS_").data <+: q.data) &&
    decide (".nc".data <:+ q.data) &&
    (q.data.drop (dirs.calibrated_dpath ++ "/").length).all (fun c => !(c == '/'))

/-- Local glob `str(lon_dpath / '*.nc')` (and likewise for `lat_dpath`). -/
def trackGlob {MV TR MG : Type} (dpath : String) (fs : FS MV TR MG) : List String :=
  (fsPaths fs).filter fun q =>
    decide ((dpath ++ "/").data <+: q.data) &&
    decide (".nc".data <:+ q.data) &&
    (q.data.drop (dpath ++ "/").length).all (fun c => !(c == '/'))

/-- `base_dpath / "concatenated_MVBS.nc"`. -/
def finalOut (dirs : Dirs) : String := dirs.base_dpath ++ "/concatenated_MVBS.nc"

/-- The whole run after the layout builder: list the bucket, filter by
date, run the per-file loop, open the three multi-file datasets,
interpolate/attach (the merger computations, abstracted as the fallible
`interpAttach` oracle), and write the final file.  Note there is no
exception handling outside `processFiles`. -/
def run {ED SV MV TR CM CT MG : Type} (env : Env ED SV MV TR CM CT MG)
    (dirs : Dirs) (s e : PyDateTime) :
    Except PyErr (FS MV TR MG × List String × MG) :=
  match env.s3glob with
  | .error er => .error er
  | .ok allFiles =>
    let files := filterByDate (date_list s e) allFiles
    let pr := processFiles env dirs ([] : FS MV TR MG) files
    match env.open_mf_mvbs (mvbsGlob dirs pr.1) with
    | .error er => .error er
    | .ok cm =>
      match env.open_mf_track (trackGlob dirs.lon_dpath pr.1) with
      | .error er => .error er
      | .ok clon =>
        match env.open_mf_track (trackGlob dirs.lat_dpath pr.1) with
        | .error er => .error er
        | .ok clat =>
          match env.interpAttach cm clon clat with
          | .error er => .error er
          | .ok mg =>
            if env.writeOk (finalOut dirs) then
              .ok ((finalOut dirs, Content.merged mg) :: pr.1, pr.2, mg)
            else .error (writeFailMsg (finalOut dirs))

/-! ### The merger's interpolation, concretely

`lon.interp(time1=MVBS_ds["ping_time"])` does linear interpolation of the
track values along its `time1` coordinate at the query times, yielding a
missing value (NaN, modelled as `none`) at query points outside the
coordinate range.  Values are modelled as rationals; the notebook's floats
enter only through this arithmetic. -/

/-- Linear interpolation over (time, value) pairs with increasing times:
`none` before the first time, the linear interpolant between bracketing
neighbours otherwise, `none` past the last time. -/
def interp1 : List (ℚ × ℚ) → ℚ → Option ℚ
  | [], _ => none
  | [a], t => if t = a.1 then some a.2 else none
  | a :: b :: rest, t =>
    if t < a.1 then none
    else if t ≤ b.1 then some (a.2 + (b.2 - a.2) * (t - a.1) / (b.1 - a.1))
    else interp1 (b :: rest) t

/-- The query time lies within the track's coordinate range (the claim's
"the source tracks fully cover the product's time range", pointwise). -/
def coversB (ps : List (ℚ × ℚ)) (t : ℚ) : Bool :=
  match ps with
  | [] => false
  | a :: rest => decide (a.1 ≤ t) && decide (t ≤ (rest.getLastD a).1)

/-- The combined `MVBS_ds` input to the merger: only its `ping_time` axis
matters here (the `Sv` data values are opaque). -/
structure MVBSDS where
  ping_time : List ℚ

/-- A combined position track (`longitude["longitude"]` or
`latitude["latitude"]`): its (time1, value) points. -/
structure TrackDA where
  points : List (ℚ × ℚ)

/-- The merged dataset built by the merger cell. -/
structure MergedDS where
  ping_time : List ℚ
  longitude : List (Option ℚ)
  latitude : List (Option ℚ)
  longitude_history : String
  latitude_history : String

/-- `history = f"{datetime.datetime.utcnow()} +00:00. Interpolated from Platform latitude/longitude."` -/
def histString (utcnow : String) : String :=
  utcnow ++ " +00:00. Interpolated from Platform latitude/longitude."

/-- The merger cell: interpolate both tracks onto `MVBS_ds["ping_time"]`,
attach them, and tag both with the `history` attribute. -/
def mergeMVBS (mvbs : MVBSDS) (lonDA latDA : TrackDA) (utcnow : String) :
    MergedDS where
  ping_time := mvbs.ping_time
  longitude := mvbs.ping_time.map (interp1 lonDA.points)
  latitude := mvbs.ping_time.map (interp1 latDA.points)
  longitude_history := histString utcnow
  latitude_history := histString utcnow

/-! ### Concrete sample environments (used by the witnesses) -/

/-- Sample output directories. -/
def dirs0 : Dirs := mkDirs "out"

/-- An environment where every external call succeeds and every write
works; the opaque payloads are tagged with distinct numbers. -/
def envAllOk : Env Nat Nat Nat Nat Nat Nat Nat where
  s3glob := .ok []
  open_raw := fun _ => .ok 10
  compute_Sv := fun _ => .ok 11
  compute_MVBS := fun _ => .ok 12
  platformLongitude := fun _ => .ok 13
  platformLatitude := fun _ => .ok 14
  writeOk := fun _ => true
  open_mf_mvbs := fun _ => .ok 15
  open_mf_track := fun _ => .ok 16
  interpAttach := fun _ _ _ => .ok 17

/-- An environment where `ep.open_raw` always raises. -/
def envOpenFail : Env Nat Nat Nat Nat Nat Nat Nat :=
  { envAllOk with open_raw := fun _ => .error "boom" }

/-- An environment where the write of the longitude file for `b/x.raw`
fails and everything else succeeds. -/
def envLonWriteFail : Env Nat Nat Nat Nat Nat Nat Nat :=
  { envAllOk with writeOk := fun q => !(q == lonOut dirs0 "b/x.raw") }

/-- An environment where the write of the latitude file for `b/x.raw`
fails and everything else succeeds. -/
def envLatWriteFail : Env Nat Nat Nat Nat Nat Nat Nat :=
  { envAllOk with writeOk := fun q => !(q == latOut dirs0 "b/x.raw") }

/-- An environment where the S3 listing itself fails. -/
def envListFail : Env Nat Nat Nat Nat Nat Nat Nat :=
  { envAllOk with s3glob := .error "connection refused" }

/-- An environment whose `open_mfdataset` oracle follows xarray's contract
of raising when given no files; the bucket listing is empty. -/
def envNoFiles : Env Nat Nat Nat Nat Nat Nat Nat :=
  { envAllOk with
    open_mf_mvbs := fun l => if l.isEmpty then .error "no files to open" else .ok 15 }

/-- An environment where the final `to_netcdf` write fails. -/
def envFinalWriteFail : Env Nat Nat Nat Nat Nat Nat Nat :=
  { envAllOk with writeOk := fun q => !(q == finalOut dirs0) }

/-- An environment where opening the combined MVBS dataset fails. -/
def envMfFail : Env Nat Nat Nat Nat Nat Nat Nat :=
  { envAllOk with open_mf_mvbs := fun _ => .error "combine failed" }

/-! ## Helper lemmas -/

/-- Looking up a path on a filesystem with one more written file. -/
theorem fsGet_cons {MV TR MG : Type} (k : String) (v : Content MV TR MG)
    (fs : FS MV TR MG) (q : String) :
    fsGet ((k, v) :: fs) q = if q = k then some v else fsGet fs q := by
  by_cases h : q = k
  · subst h
    simp [fsGet, List.lookup]
  · have hb : (q == k) = false := beq_eq_false_iff_ne.mpr h
    simp [fsGet, List.lookup, hb, h]

/-- Writing more files never deletes an existing one. -/
theorem fsGet_append_isSome {MV TR MG : Type} (l fs : FS MV TR MG) (q : String)
    (h : (fsGet fs q).isSome = true) : (fsGet (l ++ fs) q).isSome = true := by
  induction l with
  | nil => simpa using h
  | cons kv t ih =>
    obtain ⟨k, v⟩ := kv
    rw [List.cons_append, fsGet_cons]
    by_cases hq : q = k <;> simp [hq, ih]

/-- The printed message count of the loop equals the file count. -/
theorem processFiles_length {ED SV MV TR CM CT MG : Type}
    (env : Env ED SV MV TR CM CT MG) (dirs : Dirs) :
    ∀ (files : List String) (fs : FS MV TR MG),
      ((processFiles env dirs fs files).2).length = files.length
  | [], _ => rfl
  | _ :: rest, fs => by
    simp [processFiles, processFiles_length env dirs rest]

/-- Joining the same file name under two different directories yields two
different paths. -/
theorem pathJoin_ne {a b f : String} (m : String) (h : a ≠ b) :
    a ++ m ++ f ≠ b ++ m ++ f := by
  intro hc
  apply h
  apply String.ext
  have hd := congrArg String.data hc
  simp only [String.data_append, List.append_assoc] at hd
  exact List.append_cancel_right hd

/-- A successful try block wrote exactly the three output files of its
remote file, latitude last. -/
theorem tryBlock_ok_shape {ED SV MV TR CM CT MG : Type}
    (env : Env ED SV MV TR CM CT MG) (dirs : Dirs) (p : String)
    (h : (tryBlock env dirs p).2 = .ok ()) :
    ∃ mv lonv latv, tryBlock env dirs p =
      ([(latOut dirs p, Content.track latv), (lonOut dirs p, Content.track lonv),
        (calibOut dirs p, Content.mvbs mv)], .ok ()) := by
  unfold tryBlock at h ⊢
  cases ho : env.open_raw p with
  | error e => simp [ho] at h
  | ok ed =>
    simp only [ho] at h ⊢
    cases hs : env.compute_Sv ed with
    | error e => simp [hs] at h
    | ok dsSv =>
      simp only [hs] at h ⊢
      cases hm : env.compute_MVBS dsSv with
      | error e => simp [hm] at h
      | ok dsMVBS =>
        simp only [hm] at h ⊢
        cases hw1 : env.writeOk (calibOut dirs p) with
        | false => simp [hw1] at h
        | true =>
          simp only [hw1] at h ⊢
          cases hl : env.platformLongitude ed with
          | error e => simp [hl] at h
          | ok dsLon =>
            simp only [hl] at h ⊢
            cases hw2 : env.writeOk (lonOut dirs p) with
            | false => simp [hw2] at h
            | true =>
              simp only [hw2] at h ⊢
              cases ht : env.platformLatitude ed with
              | error e => simp [ht] at h
              | ok dsLat =>
                simp only [ht] at h ⊢
                cases hw3 : env.writeOk (latOut dirs p) with
                | false => simp [hw3] at h
                | true =>
                  simp only [hw3, if_true]
                  exact ⟨dsMVBS, dsLon, dsLat, by simp⟩

/-- When every step of one file's pipeline succeeds, the try block is the
three writes in order and the `.ok` outcome. -/
theorem tryBlock_allOk {ED SV MV TR CM CT MG : Type}
    (env : Env ED SV MV TR CM CT MG) (dirs : Dirs) (p : String)
    (ed : ED) (sv : SV) (mv : MV) (lonv latv : TR)
    (h1 : env.open_raw p = .ok ed) (h2 : env.compute_Sv ed = .ok sv)
    (h3 : env.compute_MVBS sv = .ok mv)
    (h4 : env.platformLongitude ed = .ok lonv)
    (h5 : env.platformLatitude ed = .ok latv)
    (hw1 : env.writeOk (calibOut dirs p) = true)
    (hw2 : env.writeOk (lonOut dirs p) = true)
    (hw3 : env.writeOk (latOut dirs p) = true) :
    tryBlock env dirs p =
      ([(latOut dirs p, Content.track latv), (lonOut dirs p, Content.track lonv),
        (calibOut dirs p, Content.mvbs mv)], .ok ()) := by
  simp [tryBlock, h1, h2, h3, h4, h5, hw1, hw2, hw3]

/-- `mkdir(exist_ok=True)` makes its directory exist. -/
theorem mem_mkdirIfAbsent_self (dirs : List String) (p : String) :
    p ∈ mkdirIfAbsent dirs p := by
  unfold mkdirIfAbsent
  split
  · assumption
  · simp

/-- `mkdir(exist_ok=True)` keeps every existing directory. -/
theorem mem_mkdirIfAbsent_of_mem {dirs : List String} {q : String} (p : String)
    (h : q ∈ dirs) : q ∈ mkdirIfAbsent dirs p := by
  unfold mkdirIfAbsent
  split
  · exact h
  · exact List.mem_append_left _ h

/-- `mkdir(exist_ok=True)` on an existing directory does nothing. -/
theorem mkdirIfAbsent_eq_of_mem {dirs : List String} {p : String}
    (h : p ∈ dirs) : mkdirIfAbsent dirs p = dirs := if_pos h

/-- `mkdir(exist_ok=True)` only appends to the directory list. -/
theorem mkdirIfAbsent_append (dirs : List String) (p : String) :
    ∃ added, mkdirIfAbsent dirs p = dirs ++ added := by
  unfold mkdirIfAbsent
  split
  · exact ⟨[], by simp⟩
  · exact ⟨[p], rfl⟩

/-- Running the layout builder against a tree that already has all four
directories changes nothing. -/
theorem buildLayout_eq_of_mem (cfg : LayoutCfg) {L : List String}
    (h1 : baseDirName cfg ∈ L) (h2 : baseDirName cfg ++ "/HakeSurvey" ∈ L)
    (h3 : baseDirName cfg ++ "/Lon" ∈ L) (h4 : baseDirName cfg ++ "/Lat" ∈ L) :
    buildLayout cfg L = L := by
  simp only [buildLayout]
  rw [mkdirIfAbsent_eq_of_mem h1, mkdirIfAbsent_eq_of_mem h2,
    mkdirIfAbsent_eq_of_mem h3, mkdirIfAbsent_eq_of_mem h4]

/-! ## Claims -/

/-- C6: the Output Layout Builder is idempotent: it creates the root
directory (whose name is string-formatted from the survey label, the two
bin sizes and the two datetimes) plus the three fixed-name subdirectories
when absent; run against an existing tree it changes nothing (and, the
model being total, raises no error), and it only ever appends to the
existing directory list, so existing directories and their contents are
untouched. -/
theorem layoutBuilder_idempotent (cfg : LayoutCfg) (dirs : List String) :
    buildLayout cfg (buildLayout cfg dirs) = buildLayout cfg dirs ∧
    (∃ added, buildLayout cfg dirs = dirs ++ added) ∧
    baseDirName cfg ∈ buildLayout cfg dirs ∧
    baseDirName cfg ++ "/HakeSurvey" ∈ buildLayout cfg dirs ∧
    baseDirName cfg ++ "/Lon" ∈ buildLayout cfg dirs ∧
    baseDirName cfg ++ "/Lat" ∈ buildLayout cfg dirs := by
  have hb : baseDirName cfg ∈ buildLayout cfg dirs := by
    unfold buildLayout
    exact mem_mkdirIfAbsent_of_mem _ (mem_mkdirIfAbsent_of_mem _
      (mem_mkdirIfAbsent_of_mem _ (mem_mkdirIfAbsent_self dirs _)))
  have hh : baseDirName cfg ++ "/HakeSurvey" ∈ buildLayout cfg dirs := by
    unfold buildLayout
    exact mem_mkdirIfAbsent_of_mem _ (mem_mkdirIfAbsent_of_mem _
      (mem_mkdirIfAbsent_self _ _))
  have hlon : baseDirName cfg ++ "/Lon" ∈ buildLayout cfg dirs := by
    unfold buildLayout
    exact mem_mkdirIfAbsent_of_mem _ (mem_mkdirIfAbsent_self _ _)
  have hlat : baseDirName cfg ++ "/Lat" ∈ buildLayout cfg dirs := by
    unfold buildLayout
    exact mem_mkdirIfAbsent_self _ _
  refine ⟨buildLayout_eq_of_mem cfg hb hh hlon hlat, ?_, hb, hh, hlon, hlat⟩
  simp only [buildLayout]
  obtain ⟨a1, e1⟩ := mkdirIfAbsent_append dirs (baseDirName cfg)
  rw [e1]
  obtain ⟨a2, e2⟩ := mkdirIfAbsent_append (dirs ++ a1) (baseDirName cfg ++ "/HakeSurvey")
  rw [e2]
  obtain ⟨a3, e3⟩ := mkdirIfAbsent_append (dirs ++ a1 ++ a2) (baseDirName cfg ++ "/Lon")
  rw [e3]
  obtain ⟨a4, e4⟩ := mkdirIfAbsent_append (dirs ++ a1 ++ a2 ++ a3) (baseDirName cfg ++ "/Lat")
  rw [e4]
  exact ⟨a1 ++ a2 ++ a3 ++ a4, by simp⟩

/-- C3: an exception raised inside one file's try block is caught: the
loop prints `Failed to process raw file <name>: <error>` for that file and
still processes every subsequent file (the tail's processing appears
unchanged in the result, and one message is printed per listed file). -/
theorem perFileErrorsCaught {ED SV MV TR CM CT MG : Type}
    (env : Env ED SV MV TR CM CT MG) (dirs : Dirs) (fs : FS MV TR MG)
    (p : String) (rest : List String) (e : PyErr)
    (h : (tryBlock env dirs p).2 = .error e) :
    processFiles env dirs fs (p :: rest) =
      ((processFiles env dirs ((tryBlock env dirs p).1 ++ fs) rest).1,
        ("Failed to process raw file " ++ pathName p ++ ": " ++ e) ::
          (processFiles env dirs ((tryBlock env dirs p).1 ++ fs) rest).2) ∧
    (processFiles env dirs fs (p :: rest)).2.length = rest.length + 1 := by
  have hpf : processFile env dirs fs p =
      ((tryBlock env dirs p).1 ++ fs,
        "Failed to process raw file " ++ pathName p ++ ": " ++ e) := by
    rcases htb : tryBlock env dirs p with ⟨ws, r⟩
    rw [htb] at h
    simp only at h
    subst h
    simp [processFile, htb]
  constructor
  · simp [processFiles, hpf]
  · rw [processFiles_length]
    simp

/-- C4: when one file's loop iteration completes without raising, the
iteration prints the success message, and the resulting filesystem holds
the three outputs of that file — `MVBS_<stem>.nc` under the calibrated,
longitude and latitude directories — while every other path is exactly as
before. -/
theorem successWritesThree {ED SV MV TR CM CT MG : Type}
    (env : Env ED SV MV TR CM CT MG) (dirs : Dirs) (p : String)
    (fs : FS MV TR MG) (h : (tryBlock env dirs p).2 = .ok ()) :
    (processFile env dirs fs p).2 = "MVBS_" ++ pathStem p ++ ".nc created" ∧
    (processFile env dirs fs p).1 = (tryBlock env dirs p).1 ++ fs ∧
    (fsGet ((tryBlock env dirs p).1 ++ fs) (calibOut dirs p)).isSome = true ∧
    (fsGet ((tryBlock env dirs p).1 ++ fs) (lonOut dirs p)).isSome = true ∧
    (fsGet ((tryBlock env dirs p).1 ++ fs) (latOut dirs p)).isSome = true ∧
    ∀ q, q ≠ calibOut dirs p → q ≠ lonOut dirs p → q ≠ latOut dirs p →
      fsGet ((tryBlock env dirs p).1 ++ fs) q = fsGet fs q := by
  obtain ⟨mv, lonv, latv, htb⟩ := tryBlock_ok_shape env dirs p h
  rw [htb]
  refine ⟨by simp [processFile, htb], by simp [processFile, htb], ?_, ?_, ?_, ?_⟩
  · simp only [List.cons_append, List.nil_append, fsGet_cons]
    by_cases h1 : calibOut dirs p = latOut dirs p
    · rw [if_pos h1]; rfl
    by_cases h2 : calibOut dirs p = lonOut dirs p
    · rw [if_neg h1, if_pos h2]; rfl
    · simp [h1, h2]
  · simp only [List.cons_append, List.nil_append, fsGet_cons]
    by_cases h1 : lonOut dirs p = latOut dirs p
    · rw [if_pos h1]; rfl
    · simp [h1]
  · simp only [List.cons_append, List.nil_append, fsGet_cons]
    simp
  · intro q hq1 hq2 hq3
    simp only [List.cons_append, List.nil_append, fsGet_cons]
    simp [hq1, hq2, hq3]

/-- C5: a failing iteration rolls nothing back.  Concretely: a failure at
or before the calibration step writes nothing at all (the try block
returns no writes and the error); a failure at the longitude persistence
step leaves the already-written binned product on disk and touches no
other path; a failure at the latitude persistence step leaves the binned
product and the longitude file on disk and touches no other path (in both
cases some but not all of the three outputs exist); and in general the
loop body never deletes an existing file. -/
theorem noCleanupOnFailure {ED SV MV TR CM CT MG : Type}
    (env : Env ED SV MV TR CM CT MG) (dirs : Dirs) (p : String) :
    (∀ er, env.open_raw p = .error er → tryBlock env dirs p = ([], .error er)) ∧
    (∀ ed er, env.open_raw p = .ok ed → env.compute_Sv ed = .error er →
      tryBlock env dirs p = ([], .error er)) ∧
    (∀ ed sv mv, env.open_raw p = .ok ed → env.compute_Sv ed = .ok sv →
      env.compute_MVBS sv = .ok mv → env.writeOk (calibOut dirs p) = true →
      env.writeOk (lonOut dirs p) = false →
      (tryBlock env dirs p).1 = [(calibOut dirs p, Content.mvbs mv)] ∧
      (∃ er, (tryBlock env dirs p).2 = .error er) ∧
      ∀ fs : FS MV TR MG,
        fsGet ((tryBlock env dirs p).1 ++ fs) (calibOut dirs p) =
          some (Content.mvbs mv) ∧
        ∀ q, q ≠ calibOut dirs p →
          fsGet ((tryBlock env dirs p).1 ++ fs) q = fsGet fs q) ∧
    (∀ ed sv mv lonv, env.open_raw p = .ok ed → env.compute_Sv ed = .ok sv →
      env.compute_MVBS sv = .ok mv → env.platformLongitude ed = .ok lonv →
      env.writeOk (calibOut dirs p) = true →
      env.writeOk (lonOut dirs p) = true →
      env.writeOk (latOut dirs p) = false →
      (tryBlock env dirs p).1 =
        [(lonOut dirs p, Content.track lonv),
          (calibOut dirs p, Content.mvbs mv)] ∧
      (∃ er, (tryBlock env dirs p).2 = .error er) ∧
      ∀ fs : FS MV TR MG,
        fsGet ((tryBlock env dirs p).1 ++ fs) (lonOut dirs p) =
          some (Content.track lonv) ∧
        (fsGet ((tryBlock env dirs p).1 ++ fs) (calibOut dirs p)).isSome =
          true ∧
        (calibOut dirs p ≠ lonOut dirs p →
          fsGet ((tryBlock env dirs p).1 ++ fs) (calibOut dirs p) =
            some (Content.mvbs mv)) ∧
        ∀ q, q ≠ calibOut dirs p → q ≠ lonOut dirs p →
          fsGet ((tryBlock env dirs p).1 ++ fs) q = fsGet fs q) ∧
    (∀ (fs : FS MV TR MG) q, (fsGet fs q).isSome = true →
      (fsGet ((tryBlock env dirs p).1 ++ fs) q).isSome = true) := by
  refine ⟨?_, ?_, ?_, ?_, ?_⟩
  · intro er h
    simp [tryBlock, h]
  · intro ed er h1 h2
    simp [tryBlock, h1, h2]
  · intro ed sv mv h1 h2 h3 hw1 hw2
    have htb : (tryBlock env dirs p).1 = [(calibOut dirs p, Content.mvbs mv)] ∧
        ∃ er, (tryBlock env dirs p).2 = .error er := by
      cases hl : env.platformLongitude ed with
      | error e2 =>
        refine ⟨by simp [tryBlock, h1, h2, h3, hw1, hl], e2, ?_⟩
        simp [tryBlock, h1, h2, h3, hw1, hl]
      | ok lonv =>
        refine ⟨by simp [tryBlock, h1, h2, h3, hw1, hw2, hl],
          writeFailMsg (lonOut dirs p), ?_⟩
        simp [tryBlock, h1, h2, h3, hw1, hw2, hl]
    refine ⟨htb.1, htb.2, ?_⟩
    intro fs
    rw [htb.1]
    constructor
    · simp [fsGet_cons]
    · intro q hq
      simp [fsGet_cons, hq]
  · intro ed sv mv lonv h1 h2 h3 h4 hw1 hw2 hw3
    have htb : (tryBlock env dirs p).1 =
        [(lonOut dirs p, Content.track lonv),
          (calibOut dirs p, Content.mvbs mv)] ∧
        ∃ er, (tryBlock env dirs p).2 = .error er := by
      cases hl : env.platformLatitude ed with
      | error e2 =>
        refine ⟨by simp [tryBlock, h1, h2, h3, h4, hw1, hw2, hl], e2, ?_⟩
        simp [tryBlock, h1, h2, h3, h4, hw1, hw2, hl]
      | ok latv =>
        refine ⟨by simp [tryBlock, h1, h2, h3, h4, hw1, hw2, hw3, hl],
          writeFailMsg (latOut dirs p), ?_⟩
        simp [tryBlock, h1, h2, h3, h4, hw1, hw2, hw3, hl]
    refine ⟨htb.1, htb.2, ?_⟩
    intro fs
    rw [htb.1]
    refine ⟨by simp [fsGet_cons], ?_, ?_, ?_⟩
    · simp only [List.cons_append, List.nil_append, fsGet_cons]
      by_cases hc : calibOut dirs p = lonOut dirs p
      · rw [if_pos hc]; rfl
      · simp [hc]
    · intro hne
      simp only [List.cons_append, List.nil_append, fsGet_cons]
      simp [hne]
    · intro q hq1 hq2
      simp [fsGet_cons, hq1, hq2]
  · intro fs q h
    exact fsGet_append_isSome _ fs q h

/-- The token appended for loop index `x` is the `MMDD` token of the
calendar day `x` days after the start date. -/
theorem dateToken_addDays (s : PyDateTime) (x : Nat) :
    dateToken (addDays s x) = mmddOfOrd (dateOrd s + x) := rfl

/-- How many tokens the notebook's loop generates: when the end's time of
day is not earlier than the start's, `(end - start).days + 1` is exactly
the number of calendar days from the start date to the end date
inclusive. -/
theorem dateCount_eq (s e : PyDateTime) (hse : toMinutes s ≤ toMinutes e)
    (hve : todMinutes e < 1440) (ht : todMinutes s ≤ todMinutes e) :
    (diffDaysFloor s e + 1).toNat = dateOrd e - dateOrd s + 1 := by
  have hnum : ((toMinutes e : Int) - (toMinutes s : Int)) =
      ((todMinutes e : Int) - todMinutes s) + ((dateOrd e : Int) - dateOrd s) * 1440 := by
    simp only [toMinutes]
    push_cast
    ring
  have hr0 : (0 : Int) ≤ (todMinutes e : Int) - todMinutes s := by omega
  have hr1 : (todMinutes e : Int) - todMinutes s < 1440 := by omega
  have hD : diffDaysFloor s e = (dateOrd e : Int) - dateOrd s := by
    rw [diffDaysFloor, hnum, Int.fdiv_eq_ediv _ (by norm_num),
      Int.add_mul_ediv_right _ _ (by norm_num : (1440 : Int) ≠ 0),
      Int.ediv_eq_zero_of_lt hr0 hr1, zero_add]
  have hds : dateOrd s ≤ dateOrd e := by
    have h2 := hse
    simp only [toMinutes] at h2
    omega
  rw [hD]
  omega

/-- C1: for a date range within one year spanning `N` calendar days (at
day granularity: the end's time of day is not earlier than the start's),
the Date Filter generates exactly `N` day tokens, and keeps exactly the
paths containing the literal `"D2017"` prefix concatenated with one of
those `N` days' `MMDD` tokens, excluding every other path. -/
theorem dateFilterKeepsExactly (s e : PyDateTime) (paths : List String)
    (p : String) (_hy : s.year = e.year) (hse : toMinutes s ≤ toMinutes e)
    (hve : todMinutes e < 1440) (ht : todMinutes s ≤ todMinutes e) :
    (date_list s e).length = dateOrd e - dateOrd s + 1 ∧
    (p ∈ filterByDate (date_list s e) paths ↔
      p ∈ paths ∧ ∃ k ≤ dateOrd e - dateOrd s,
        containsSub ("D2017" ++ mmddOfOrd (dateOrd s + k)) p = true) := by
  have hN := dateCount_eq s e hse hve ht
  constructor
  · simp [date_list, hN]
  rw [filterByDate, List.mem_filter]
  constructor
  · rintro ⟨hp, hany⟩
    rw [List.any_eq_true] at hany
    obtain ⟨d, hd, hsub⟩ := hany
    rw [date_list, List.mem_map] at hd
    obtain ⟨x, hx, rfl⟩ := hd
    rw [List.mem_range, hN] at hx
    rw [dateToken_addDays] at hsub
    exact ⟨hp, x, by omega, hsub⟩
  · rintro ⟨hp, k, hk, hsub⟩
    refine ⟨hp, ?_⟩
    rw [List.any_eq_true]
    refine ⟨dateToken (addDays s k), ?_, ?_⟩
    · rw [date_list, List.mem_map]
      exact ⟨k, by rw [List.mem_range, hN]; omega, rfl⟩
    · rw [dateToken_addDays]
      exact hsub

/-- C2 as stated is false: the enumeration is not independent of the
time-of-day components.  With `start = 2017-07-24 23:59` and
`end = 2017-07-25 00:00` (so `start ≤ end`), the end date's token `0725`
is absent from `date_list`, because `(end - start).days` floors to `0`. -/
theorem dateListMissesEndDate :
    toMinutes ⟨2017, 7, 24, 23, 59⟩ ≤ toMinutes ⟨2017, 7, 25, 0, 0⟩ ∧
    mmddOfOrd (dateOrd ⟨2017, 7, 25, 0, 0⟩) = "0725" ∧
    "0725" ∉ date_list ⟨2017, 7, 24, 23, 59⟩ ⟨2017, 7, 25, 0, 0⟩ := by
  decide

/-- C2, amended: whenever the end datetime's time of day is not earlier
than the start's (in particular at day granularity), the enumeration
contains the `MMDD` token of every calendar day from the start date
through the end date inclusive (`k = 0` and `k = dateOrd e - dateOrd s`
give the two endpoints). -/
theorem dateListCoversAllDays (s e : PyDateTime)
    (hse : toMinutes s ≤ toMinutes e) (hve : todMinutes e < 1440)
    (ht : todMinutes s ≤ todMinutes e)
    (k : Nat) (hk : k ≤ dateOrd e - dateOrd s) :
    mmddOfOrd (dateOrd s + k) ∈ date_list s e := by
  have hN := dateCount_eq s e hse hve ht
  rw [date_list, List.mem_map]
  exact ⟨k, by rw [List.mem_range, hN]; omega, dateToken_addDays s k⟩

/-- A path that contains `"D2017" ++ d` contains `"D2017"`. -/
theorem containsSub_of_append (a b p : String)
    (h : containsSub (a ++ b) p = true) : containsSub a p = true := by
  simp only [containsSub, decide_eq_true_eq] at h ⊢
  refine List.IsInfix.trans ?_ h
  rw [String.data_append]
  exact (List.prefix_append a.data b.data).isInfix

/-- C10: the year prefix is the literal `"D2017"`, not derived from the
configured datetimes: two configurations differing only in their year
components (and hence, as hypothesised, yielding the same month/day token
list) make the filter select exactly the same paths, and a path that does
not contain `"D2017"` is never selected, under any configuration. -/
theorem yearTokenIsLiteral (s e s' e' : PyDateTime) (paths : List String)
    (p : String)
    (_hs1 : s'.month = s.month) (_hs2 : s'.day = s.day)
    (_hs3 : s'.hour = s.hour) (_hs4 : s'.minute = s.minute)
    (_he1 : e'.month = e.month) (_he2 : e'.day = e.day)
    (_he3 : e'.hour = e.hour) (_he4 : e'.minute = e.minute)
    (hdl : date_list s e = date_list s' e')
    (hp : containsSub "D2017" p = false) :
    filterByDate (date_list s e) paths = filterByDate (date_list s' e') paths ∧
    p ∉ filterByDate (date_list s e) paths := by
  refine ⟨by rw [hdl], ?_⟩
  intro hmem
  rw [filterByDate, List.mem_filter, List.any_eq_true] at hmem
  obtain ⟨-, d, -, hsub⟩ := hmem
  have hcontra := containsSub_of_append "D2017" d p hsub
  rw [hp] at hcontra
  exact Bool.false_ne_true hcontra

/-- Linear interpolation yields a (non-missing) value at every query time
within the track's coordinate range. -/
theorem interp1_isSome :
    ∀ (ps : List (ℚ × ℚ)) (t : ℚ), coversB ps t = true →
      (interp1 ps t).isSome = true
  | [], t, h => by simp [coversB] at h
  | [a], t, h => by
    simp [coversB] at h
    have : t = a.1 := le_antisymm h.2 h.1
    simp [interp1, this]
  | a :: b :: rest, t, h => by
    simp only [coversB, List.getLastD_cons, Bool.and_eq_true, decide_eq_true_eq] at h
    rw [interp1]
    by_cases h1 : t < a.1
    · exact absurd h1 (not_lt.mpr h.1)
    by_cases h2 : t ≤ b.1
    · simp [h1, h2]
    · simp only [h1, h2, if_false]
      refine interp1_isSome (b :: rest) t ?_
      simp only [coversB, List.getLastD_cons, Bool.and_eq_true, decide_eq_true_eq]
      exact ⟨le_of_lt (not_le.mp h2), h.2⟩

/-- C7: when the position tracks cover the combined product's time range,
the merged dataset keeps the combined `MVBS` input's time axis (so its
interpolated longitude and latitude columns have the same length as that
axis), every point carries a non-missing interpolated longitude and
latitude, and both attached fields carry the `history` provenance
attribute — the UTC timestamp followed by the fixed description — which is
never the empty string. -/
theorem mergerCovered (mvbs : MVBSDS) (lonDA latDA : TrackDA)
    (utcnow : String)
    (hlon : ∀ t ∈ mvbs.ping_time, coversB lonDA.points t = true)
    (hlat : ∀ t ∈ mvbs.ping_time, coversB latDA.points t = true) :
    (mergeMVBS mvbs lonDA latDA utcnow).ping_time = mvbs.ping_time ∧
    (mergeMVBS mvbs lonDA latDA utcnow).longitude.length =
      mvbs.ping_time.length ∧
    (mergeMVBS mvbs lonDA latDA utcnow).latitude.length =
      mvbs.ping_time.length ∧
    (∀ v ∈ (mergeMVBS mvbs lonDA latDA utcnow).longitude, v.isSome = true) ∧
    (∀ v ∈ (mergeMVBS mvbs lonDA latDA utcnow).latitude, v.isSome = true) ∧
    (mergeMVBS mvbs lonDA latDA utcnow).longitude_history =
      histString utcnow ∧
    (mergeMVBS mvbs lonDA latDA utcnow).latitude_history =
      histString utcnow ∧
    (mergeMVBS mvbs lonDA latDA utcnow).longitude_history ≠ "" := by
  refine ⟨rfl, by simp [mergeMVBS], by simp [mergeMVBS], ?_, ?_, rfl, rfl, ?_⟩
  · intro v hv
    simp only [mergeMVBS, List.mem_map] at hv
    obtain ⟨t, ht, rfl⟩ := hv
    exact interp1_isSome _ t (hlon t ht)
  · intro v hv
    simp only [mergeMVBS, List.mem_map] at hv
    obtain ⟨t, ht, rfl⟩ := hv
    exact interp1_isSome _ t (hlat t ht)
  · intro hc
    have h2 : utcnow.data ++
        (" +00:00. Interpolated from Platform latitude/longitude." :
          String).data = [] := by
      have h3 := congrArg String.data hc
      simp only [mergeMVBS, histString, String.data_append] at h3
      exact h3
    have h4 := (List.append_eq_nil.mp h2).2
    have h5 : (" +00:00. Interpolated from Platform latitude/longitude." :
        String).data ≠ [] := by decide
    exact h5 h4

/-- C8: no exception handling exists outside the per-file loop.  A listing
failure propagates; a failure opening the combined dataset propagates; an
empty filtered listing processes zero files and then propagates the
merger-stage open failure (xarray raises on an empty input list); and a
failure writing the final combined file propagates. -/
theorem outsideLoopErrorsPropagate {ED SV MV TR CM CT MG : Type}
    (env : Env ED SV MV TR CM CT MG) (dirs : Dirs) (s e : PyDateTime) :
    (∀ er, env.s3glob = .error er → run env dirs s e = .error er) ∧
    (∀ l er, env.s3glob = .ok l →
      env.open_mf_mvbs (mvbsGlob dirs
        (processFiles env dirs ([] : FS MV TR MG)
          (filterByDate (date_list s e) l)).1) = .error er →
      run env dirs s e = .error er) ∧
    (∀ l, env.s3glob = .ok l → filterByDate (date_list s e) l = [] →
      processFiles env dirs ([] : FS MV TR MG)
          (filterByDate (date_list s e) l) = ([], []) ∧
      (∀ er, env.open_mf_mvbs ([] : List String) = .error er →
        run env dirs s e = .error er)) ∧
    (∀ l cm clon clat mg, env.s3glob = .ok l →
      env.open_mf_mvbs (mvbsGlob dirs
        (processFiles env dirs ([] : FS MV TR MG)
          (filterByDate (date_list s e) l)).1) = .ok cm →
      env.open_mf_track (trackGlob dirs.lon_dpath
        (processFiles env dirs ([] : FS MV TR MG)
          (filterByDate (date_list s e) l)).1) = .ok clon →
      env.open_mf_track (trackGlob dirs.lat_dpath
        (processFiles env dirs ([] : FS MV TR MG)
          (filterByDate (date_list s e) l)).1) = .ok clat →
      env.interpAttach cm clon clat = .ok mg →
      env.writeOk (finalOut dirs) = false →
      run env dirs s e = .error (writeFailMsg (finalOut dirs))) := by
  refine ⟨?_, ?_, ?_, ?_⟩
  · intro er h
    simp [run, h]
  · intro l er h1 h2
    simp [run, h1, h2]
  · intro l h1 hfil
    refine ⟨by rw [hfil]; rfl, ?_⟩
    intro er h2
    have hglob : mvbsGlob dirs
        (processFiles env dirs ([] : FS MV TR MG)
          (filterByDate (date_list s e) l)).1 = [] := by
      rw [hfil]
      rfl
    simp [run, h1, hglob, h2]
  · intro l cm clon clat mg h1 h2 h3 h4 h5 hw
    simp [run, h1, h2, h3, h4, h5, hw]

/-- C9: two distinct remote files with the same stem write to the same
three output paths; when the second is processed after the first, its
outputs silently overwrite the first's — the filesystem afterwards holds
the second file's data at those paths, the loop emits the per-file
messages as usual (the second one a success message), and no error or
collision detection occurs. -/
theorem stemCollisionOverwrites {ED SV MV TR CM CT MG : Type}
    (env : Env ED SV MV TR CM CT MG) (dirs : Dirs) (fs : FS MV TR MG)
    (p1 p2 : String) (ed : ED) (sv : SV) (mv : MV) (lonv latv : TR)
    (hstem : pathStem p1 = pathStem p2) (_hne : p1 ≠ p2)
    (hd1 : dirs.calibrated_dpath ≠ dirs.lon_dpath)
    (hd2 : dirs.calibrated_dpath ≠ dirs.lat_dpath)
    (hd3 : dirs.lon_dpath ≠ dirs.lat_dpath)
    (h1 : env.open_raw p2 = .ok ed) (h2 : env.compute_Sv ed = .ok sv)
    (h3 : env.compute_MVBS sv = .ok mv)
    (h4 : env.platformLongitude ed = .ok lonv)
    (h5 : env.platformLatitude ed = .ok latv)
    (hw1 : env.writeOk (calibOut dirs p2) = true)
    (hw2 : env.writeOk (lonOut dirs p2) = true)
    (hw3 : env.writeOk (latOut dirs p2) = true) :
    calibOut dirs p1 = calibOut dirs p2 ∧
    lonOut dirs p1 = lonOut dirs p2 ∧
    latOut dirs p1 = latOut dirs p2 ∧
    fsGet (processFiles env dirs fs [p1, p2]).1 (calibOut dirs p1) =
      some (Content.mvbs mv) ∧
    fsGet (processFiles env dirs fs [p1, p2]).1 (lonOut dirs p1) =
      some (Content.track lonv) ∧
    fsGet (processFiles env dirs fs [p1, p2]).1 (latOut dirs p1) =
      some (Content.track latv) ∧
    (processFiles env dirs fs [p1, p2]).2 =
      [(processFile env dirs fs p1).2,
        "MVBS_" ++ pathStem p2 ++ ".nc created"] := by
  have e1 : calibOut dirs p1 = calibOut dirs p2 := by
    unfold calibOut mvbsFileName
    rw [hstem]
  have e2 : lonOut dirs p1 = lonOut dirs p2 := by
    unfold lonOut mvbsFileName
    rw [hstem]
  have e3 : latOut dirs p1 = latOut dirs p2 := by
    unfold latOut mvbsFileName
    rw [hstem]
  have htb := tryBlock_allOk env dirs p2 ed sv mv lonv latv h1 h2 h3 h4 h5
    hw1 hw2 hw3
  have hrun : processFiles env dirs fs [p1, p2] =
      ([(latOut dirs p2, Content.track latv),
        (lonOut dirs p2, Content.track lonv),
        (calibOut dirs p2, Content.mvbs mv)] ++ (processFile env dirs fs p1).1,
       [(processFile env dirs fs p1).2,
         "MVBS_" ++ pathStem p2 ++ ".nc created"]) := by
    simp [processFiles, processFile, htb]
  have n1 : calibOut dirs p2 ≠ latOut dirs p2 := pathJoin_ne "/" hd2
  have n2 : calibOut dirs p2 ≠ lonOut dirs p2 := pathJoin_ne "/" hd1
  have n3 : lonOut dirs p2 ≠ latOut dirs p2 := pathJoin_ne "/" hd3
  refine ⟨e1, e2, e3, ?_, ?_, ?_, by rw [hrun]⟩
  · rw [hrun, e1]
    simp [fsGet_cons, n1, n2]
  · rw [hrun, e2]
    simp [fsGet_cons, n3]
  · rw [hrun, e3]
    simp [fsGet_cons]

/-! ## Witnesses -/

/-- Witness for C1 at the notebook's configured range, on a list holding a
2017 match and a 2016 near-miss. -/
theorem dateFilterKeepsExactly_witness :
    (date_list start_datetime end_datetime).length =
      dateOrd end_datetime - dateOrd start_datetime + 1 ∧
    ("a/D20170801-x.raw" ∈ filterByDate (date_list start_datetime end_datetime)
        ["a/D20170801-x.raw", "a/D20160801.raw"] ↔
      "a/D20170801-x.raw" ∈ ["a/D20170801-x.raw", "a/D20160801.raw"] ∧
      ∃ k ≤ dateOrd end_datetime - dateOrd start_datetime,
        containsSub ("D2017" ++ mmddOfOrd (dateOrd start_datetime + k))
          "a/D20170801-x.raw" = true) :=
  dateFilterKeepsExactly start_datetime end_datetime
    ["a/D20170801-x.raw", "a/D20160801.raw"] "a/D20170801-x.raw"
    rfl (by decide) (by decide) (by decide)

/-- Witness for the amended C2: the end date's token (`k = 31` days after
the start) is enumerated for the notebook's configured range. -/
theorem dateListCoversAllDays_witness :
    mmddOfOrd (dateOrd start_datetime + 31) ∈
      date_list start_datetime end_datetime :=
  dateListCoversAllDays start_datetime end_datetime (by decide) (by decide)
    (by decide) 31 (by decide)

/-- Witness for C3: with `open_raw` raising, both listed files get failure
messages and the loop reaches the second file. -/
theorem perFileErrorsCaught_witness :
    processFiles envOpenFail dirs0 ([] : FS Nat Nat Nat)
        ("b/x.raw" :: ["b/y.raw"]) =
      ((processFiles envOpenFail dirs0
          ((tryBlock envOpenFail dirs0 "b/x.raw").1 ++ []) ["b/y.raw"]).1,
        ("Failed to process raw file " ++ pathName "b/x.raw" ++ ": " ++ "boom") ::
          (processFiles envOpenFail dirs0
            ((tryBlock envOpenFail dirs0 "b/x.raw").1 ++ []) ["b/y.raw"]).2) ∧
    (processFiles envOpenFail dirs0 ([] : FS Nat Nat Nat)
        ("b/x.raw" :: ["b/y.raw"])).2.length = ["b/y.raw"].length + 1 :=
  perFileErrorsCaught envOpenFail dirs0 [] "b/x.raw" ["b/y.raw"] "boom" rfl

/-- Witness for C4 on a concrete all-succeeding run. -/
theorem successWritesThree_witness :
    (processFile envAllOk dirs0 ([] : FS Nat Nat Nat) "b/x.raw").2 =
      "MVBS_" ++ pathStem "b/x.raw" ++ ".nc created" ∧
    (fsGet ((tryBlock envAllOk dirs0 "b/x.raw").1 ++ ([] : FS Nat Nat Nat))
      (calibOut dirs0 "b/x.raw")).isSome = true ∧
    (fsGet ((tryBlock envAllOk dirs0 "b/x.raw").1 ++ ([] : FS Nat Nat Nat))
      (lonOut dirs0 "b/x.raw")).isSome = true ∧
    (fsGet ((tryBlock envAllOk dirs0 "b/x.raw").1 ++ ([] : FS Nat Nat Nat))
      (latOut dirs0 "b/x.raw")).isSome = true ∧
    fsGet ((tryBlock envAllOk dirs0 "b/x.raw").1 ++ ([] : FS Nat Nat Nat))
      "other/path" = fsGet ([] : FS Nat Nat Nat) "other/path" :=
  ⟨(successWritesThree envAllOk dirs0 "b/x.raw" [] rfl).1,
   (successWritesThree envAllOk dirs0 "b/x.raw" [] rfl).2.2.1,
   (successWritesThree envAllOk dirs0 "b/x.raw" [] rfl).2.2.2.1,
   (successWritesThree envAllOk dirs0 "b/x.raw" [] rfl).2.2.2.2.1,
   (successWritesThree envAllOk dirs0 "b/x.raw" [] rfl).2.2.2.2.2
     "other/path" (by decide) (by decide) (by decide)⟩

/-- Witness for C5: a raising `open_raw` writes nothing; a failing
longitude write leaves exactly the binned product; existing files
survive a failing iteration. -/
theorem noCleanupOnFailure_witness :
    tryBlock envOpenFail dirs0 "b/x.raw" = ([], .error "boom") ∧
    (tryBlock envLonWriteFail dirs0 "b/x.raw").1 =
      [(calibOut dirs0 "b/x.raw", Content.mvbs 12)] ∧
    (∃ er, (tryBlock envLonWriteFail dirs0 "b/x.raw").2 = .error er) ∧
    fsGet ((tryBlock envLonWriteFail dirs0 "b/x.raw").1 ++
        ([] : FS Nat Nat Nat)) (calibOut dirs0 "b/x.raw") =
      some (Content.mvbs 12) ∧
    fsGet ((tryBlock envLonWriteFail dirs0 "b/x.raw").1 ++
        ([] : FS Nat Nat Nat)) (lonOut dirs0 "b/x.raw") =
      fsGet ([] : FS Nat Nat Nat) (lonOut dirs0 "b/x.raw") ∧
    (tryBlock envLatWriteFail dirs0 "b/x.raw").1 =
      [(lonOut dirs0 "b/x.raw", Content.track 13),
        (calibOut dirs0 "b/x.raw", Content.mvbs 12)] ∧
    (∃ er, (tryBlock envLatWriteFail dirs0 "b/x.raw").2 = .error er) ∧
    fsGet ((tryBlock envLatWriteFail dirs0 "b/x.raw").1 ++
        ([] : FS Nat Nat Nat)) (lonOut dirs0 "b/x.raw") =
      some (Content.track 13) ∧
    fsGet ((tryBlock envLatWriteFail dirs0 "b/x.raw").1 ++
        ([] : FS Nat Nat Nat)) (calibOut dirs0 "b/x.raw") =
      some (Content.mvbs 12) ∧
    fsGet ((tryBlock envLatWriteFail dirs0 "b/x.raw").1 ++
        ([] : FS Nat Nat Nat)) (latOut dirs0 "b/x.raw") =
      fsGet ([] : FS Nat Nat Nat) (latOut dirs0 "b/x.raw") ∧
    (fsGet ((tryBlock envOpenFail dirs0 "b/x.raw").1 ++
        [("old/file.nc", Content.mvbs 0)]) "old/file.nc").isSome = true := by
  have W := noCleanupOnFailure envLonWriteFail dirs0 "b/x.raw"
  have W3 := W.2.2.1 10 11 12 rfl rfl rfl (by decide) (by decide)
  have W4 := (noCleanupOnFailure envLatWriteFail dirs0 "b/x.raw").2.2.2.1
    10 11 12 13 rfl rfl rfl rfl (by decide) (by decide) (by decide)
  exact ⟨(noCleanupOnFailure envOpenFail dirs0 "b/x.raw").1 "boom" rfl,
    W3.1, W3.2.1, (W3.2.2 []).1,
    (W3.2.2 []).2 (lonOut dirs0 "b/x.raw") (by decide),
    W4.1, W4.2.1, (W4.2.2 []).1,
    (W4.2.2 []).2.2.1 (by decide),
    (W4.2.2 []).2.2.2 (latOut dirs0 "b/x.raw") (by decide) (by decide),
    (noCleanupOnFailure envOpenFail dirs0 "b/x.raw").2.2.2.2
      [("old/file.nc", Content.mvbs 0)] "old/file.nc" rfl⟩

/-- Witness for C7 on two query times inside a two-point track. -/
theorem mergerCovered_witness :
    (mergeMVBS ⟨[1, 2]⟩ ⟨[(0, 10), (3, 13)]⟩ ⟨[(0, 50), (3, 53)]⟩
      "2017-09-01 00:00:00").ping_time = ([1, 2] : List ℚ) ∧
    (mergeMVBS ⟨[1, 2]⟩ ⟨[(0, 10), (3, 13)]⟩ ⟨[(0, 50), (3, 53)]⟩
      "2017-09-01 00:00:00").longitude.length = ([1, 2] : List ℚ).length ∧
    (mergeMVBS ⟨[1, 2]⟩ ⟨[(0, 10), (3, 13)]⟩ ⟨[(0, 50), (3, 53)]⟩
      "2017-09-01 00:00:00").latitude.length = ([1, 2] : List ℚ).length ∧
    (mergeMVBS ⟨[1, 2]⟩ ⟨[(0, 10), (3, 13)]⟩ ⟨[(0, 50), (3, 53)]⟩
      "2017-09-01 00:00:00").longitude_history =
      histString "2017-09-01 00:00:00" ∧
    (interp1 [(0, 10), (3, 13)] 1).isSome = true ∧
    (mergeMVBS ⟨[1, 2]⟩ ⟨[(0, 10), (3, 13)]⟩ ⟨[(0, 50), (3, 53)]⟩
      "2017-09-01 00:00:00").longitude_history ≠ "" := by
  have hcov : ∀ t ∈ ([1, 2] : List ℚ), coversB [(0, 10), (3, 13)] t = true := by
    intro t ht
    simp only [List.mem_cons, List.not_mem_nil, or_false] at ht
    rcases ht with rfl | rfl <;>
      · simp only [coversB, List.getLastD_cons, List.getLastD_nil,
          Bool.and_eq_true, decide_eq_true_eq]
        norm_num
  have hcov2 : ∀ t ∈ ([1, 2] : List ℚ), coversB [(0, 50), (3, 53)] t = true := by
    intro t ht
    simp only [List.mem_cons, List.not_mem_nil, or_false] at ht
    rcases ht with rfl | rfl <;>
      · simp only [coversB, List.getLastD_cons, List.getLastD_nil,
          Bool.and_eq_true, decide_eq_true_eq]
        norm_num
  have W := mergerCovered ⟨[1, 2]⟩ ⟨[(0, 10), (3, 13)]⟩ ⟨[(0, 50), (3, 53)]⟩
    "2017-09-01 00:00:00" hcov hcov2
  exact ⟨W.1, W.2.1, W.2.2.1, W.2.2.2.2.2.1,
    W.2.2.2.1 (interp1 [(0, 10), (3, 13)] 1)
      (List.mem_map_of_mem _ (by simp)), W.2.2.2.2.2.2.2⟩

/-- Witness for C8: the four propagation scenarios at concrete
environments. -/
theorem outsideLoopErrorsPropagate_witness :
    run envListFail dirs0 start_datetime end_datetime =
      .error "connection refused" ∧
    run envMfFail dirs0 start_datetime end_datetime =
      .error "combine failed" ∧
    processFiles envNoFiles dirs0 ([] : FS Nat Nat Nat)
      (filterByDate (date_list start_datetime end_datetime) []) = ([], []) ∧
    run envNoFiles dirs0 start_datetime end_datetime =
      .error "no files to open" ∧
    run envFinalWriteFail dirs0 start_datetime end_datetime =
      .error (writeFailMsg (finalOut dirs0)) := by
  have WN := (outsideLoopErrorsPropagate envNoFiles dirs0 start_datetime
    end_datetime).2.2.1 [] rfl rfl
  exact ⟨(outsideLoopErrorsPropagate envListFail dirs0 start_datetime
      end_datetime).1 "connection refused" rfl,
    (outsideLoopErrorsPropagate envMfFail dirs0 start_datetime
      end_datetime).2.1 [] "combine failed" rfl rfl,
    WN.1, WN.2 "no files to open" rfl,
    (outsideLoopErrorsPropagate envFinalWriteFail dirs0 start_datetime
      end_datetime).2.2.2 [] 15 16 16 17 rfl rfl rfl rfl rfl rfl⟩

/-- Witness for C9: `b1/x.raw` and `b2/x.raw` collide on the stem `x`;
after the loop, all three output paths hold the second file's data and
both messages are ordinary per-file messages. -/
theorem stemCollisionOverwrites_witness :
    calibOut dirs0 "b1/x.raw" = calibOut dirs0 "b2/x.raw" ∧
    fsGet (processFiles envAllOk dirs0 ([] : FS Nat Nat Nat)
        ["b1/x.raw", "b2/x.raw"]).1 (calibOut dirs0 "b1/x.raw") =
      some (Content.mvbs 12) ∧
    fsGet (processFiles envAllOk dirs0 ([] : FS Nat Nat Nat)
        ["b1/x.raw", "b2/x.raw"]).1 (lonOut dirs0 "b1/x.raw") =
      some (Content.track 13) ∧
    fsGet (processFiles envAllOk dirs0 ([] : FS Nat Nat Nat)
        ["b1/x.raw", "b2/x.raw"]).1 (latOut dirs0 "b1/x.raw") =
      some (Content.track 14) ∧
    (processFiles envAllOk dirs0 ([] : FS Nat Nat Nat)
        ["b1/x.raw", "b2/x.raw"]).2 =
      [(processFile envAllOk dirs0 ([] : FS Nat Nat Nat) "b1/x.raw").2,
        "MVBS_" ++ pathStem "b2/x.raw" ++ ".nc created"] := by
  have W := stemCollisionOverwrites envAllOk dirs0 [] "b1/x.raw" "b2/x.raw"
    10 11 12 13 14 (by decide) (by decide) (by decide) (by decide) (by decide)
    rfl rfl rfl rfl rfl rfl rfl rfl
  exact ⟨W.1, W.2.2.2.1, W.2.2.2.2.1, W.2.2.2.2.2.1, W.2.2.2.2.2.2⟩

/-- Witness for C10: shifting both configured datetimes from 2017 to 2018
(same month/day tokens) selects the same files, and a 2018-stamped path is
never selected. -/
theorem yearTokenIsLiteral_witness :
    filterByDate (date_list start_datetime end_datetime)
        ["a/D20180801.raw"] =
      filterByDate (date_list ⟨2018, 7, 24, 0, 0⟩ ⟨2018, 8, 24, 23, 59⟩)
        ["a/D20180801.raw"] ∧
    "a/D20180801.raw" ∉ filterByDate (date_list start_datetime end_datetime)
        ["a/D20180801.raw"] :=
  yearTokenIsLiteral start_datetime end_datetime ⟨2018, 7, 24, 0, 0⟩
    ⟨2018, 8, 24, 23, 59⟩ ["a/D20180801.raw"] "a/D20180801.raw"
    rfl rfl rfl rfl rfl rfl rfl rfl (by decide) (by decide)

end GetShipData

